import Mathlib

/-!
Shallow embedding of the SceneEditor class from editors/SceneEditor.js.

JavaScript numbers are modelled as rationals (ℚ); the handful of places
where IEEE-754 non-finite values matter (division by zero in the scale
tool) are modelled separately with an extended-number type `JSNum`.
Stateful methods become pure functions from an editor state to a new
editor state.  Canvas/DOM side effects (cursor changes, rendering
strokes) are outside the state and are dropped; the numeric positions
the renderer computes are kept as pure functions.
-/

namespace SceneEdit

/-- Update the first element of a list satisfying a predicate, leaving the
rest unchanged.  This is the functional translation of the JavaScript
pattern of calling `find` on an array and mutating the returned element
in place. -/
def updateFirst {α : Type} (p : α → Bool) (f : α → α) : List α → List α
  | [] => []
  | x :: xs => if p x then f x :: xs else x :: updateFirst p f xs

/-- JavaScript array element assignment `arr[i] = v`: in-bounds indices
overwrite, while an index past the end extends the array (holes modelled
as 0). -/
def jsSetIdx (l : List ℤ) (i : ℕ) (v : ℤ) : List ℤ :=
  if i < l.length then l.set i v
  else l ++ List.replicate (i - l.length) 0 ++ [v]

/-- JavaScript expression `this.app.selectedTile || 1` with the selected
tile modelled as an optional integer: an absent value or the falsy value
0 yields 1. -/
def jsOrOne : Option ℤ → ℤ
  | none => 1
  | some v => if v = 0 then 1 else v

/-- Scene object record.  The source stores objects as dynamic records;
all fields used by the editor core are present here, with the
tilemap-specific fields carrying default values on non-tilemap objects. -/
structure SceneObject where
  id : String
  type : String
  name : String
  x : ℚ
  y : ℚ
  width : ℚ
  height : ℚ
  rotation : ℚ
  tileSize : ℚ
  columns : ℤ
  rows : ℤ
  tileset : String
  tileData : List ℤ
deriving Repr, DecidableEq

/-- Layer record from the scene model. -/
structure Layer where
  id : String
  name : String
  visible : Bool
  objects : List SceneObject
deriving Repr, DecidableEq

/-- Scene record from the scene model. -/
structure Scene where
  id : String
  name : String
  width : ℚ
  height : ℚ
  backgroundColor : String
  layers : List Layer
  activeLayer : String
deriving Repr, DecidableEq

/-- Per-object capture made by handleMoveToolDown and read by
handleMoveToolMove (the down handler itself is not in the sources; the
record layout is read off the uses in handleMoveToolMove). -/
structure DragObjInfo where
  id : String
  layerId : String
  startX : ℚ
  startY : ℚ
deriving Repr, DecidableEq

/-- Transient state of the move tool (this.dragInfo). -/
structure DragInfo where
  objects : List DragObjInfo
deriving Repr, DecidableEq

/-- Per-object capture made by handleRotateToolDown. -/
structure RotateObjInfo where
  id : String
  layerId : String
  centerX : ℚ
  centerY : ℚ
  startRotation : ℚ
  initialAngle : ℚ
deriving Repr, DecidableEq

/-- Transient state of the rotate tool (this.rotateInfo). -/
structure RotateInfo where
  objects : List RotateObjInfo
deriving Repr, DecidableEq

/-- Per-object capture made by handleScaleToolDown. -/
structure ScaleObjInfo where
  id : String
  layerId : String
  startX : ℚ
  startY : ℚ
  startWidth : ℚ
  startHeight : ℚ
  startMouseX : ℚ
  startMouseY : ℚ
deriving Repr, DecidableEq

/-- Transient state of the scale tool (this.scaleInfo). -/
structure ScaleInfo where
  objects : List ScaleObjInfo
deriving Repr, DecidableEq

/-- State of a SceneEditor instance: the fields initialised in the
constructor plus the transient per-tool drag fields and the globals on
`this.app` that the tile tool reads. -/
structure SceneEditor where
  activeScene : Scene
  selectedObjects : List String
  gridSize : ℚ
  showGrid : Bool
  snapToGrid : Bool
  zoom : ℚ
  panOffset : ℚ × ℚ
  isDragging : Bool
  isPanning : Bool
  activeTool : String
  dragInfo : Option DragInfo
  rotateInfo : Option RotateInfo
  scaleInfo : Option ScaleInfo
  lastPlacedTile : Option (ℤ × ℤ)
  appTileset : Option String
  appSelectedTile : Option ℤ
  nowMs : ℕ
deriving Repr, DecidableEq

/-- Keys of the `this.tools` table built in the constructor. -/
def toolIds : List String := ["select", "move", "rotate", "scale", "tile"]

/-- Method setActiveTool: bails out on an unknown tool id, otherwise sets
this.activeTool and updates toolbar button classes and the canvas cursor
(UI effects not part of the state). -/
def SceneEditor.setActiveTool (st : SceneEditor) (toolId : String) : SceneEditor :=
  if toolIds.contains toolId then { st with activeTool := toolId } else st

/-- Method setZoom: clamps the zoom to the range from 0.1 to 5.0 and
re-renders. -/
def SceneEditor.setZoom (st : SceneEditor) (z : ℚ) : SceneEditor :=
  { st with zoom := max (1/10) (min 5 z) }

/-- Method onLoadScene: replaces the active scene, clears the selection,
and resets zoom and pan; nothing else is touched. -/
def SceneEditor.onLoadScene (st : SceneEditor) (scene : Scene) : SceneEditor :=
  { st with
    activeScene := scene
    selectedObjects := []
    zoom := 1
    panOffset := (0, 0) }

/-- Lookup of a layer by id, as done with `layers.find` in the source. -/
def Scene.findLayer (s : Scene) (lid : String) : Option Layer :=
  s.layers.find? (fun l => l.id == lid)

/-- Functional counterpart of mutating a layer held by reference: update
the first layer with the given id. -/
def Scene.updateLayer (s : Scene) (lid : String) (f : Layer → Layer) : Scene :=
  { s with layers := updateFirst (fun l => l.id == lid) f s.layers }

/-- Functional counterpart of `layer.objects.find(...)` followed by
in-place mutation of the found object. -/
def Layer.updateObject (l : Layer) (p : SceneObject → Bool) (f : SceneObject → SceneObject) : Layer :=
  { l with objects := updateFirst p f l.objects }

/-- Search every layer for an object with the given id, returning the
containing layer too; this is the loop
`for (const layer of layers) { layer.objects.find(o => o.id === id) }`
used by the rotate and scale down handlers. -/
def Scene.findObjectWithLayer (s : Scene) (oid : String) : Option (Layer × SceneObject) :=
  s.layers.findSome? (fun layer =>
    (layer.objects.find? (fun o => o.id == oid)).map (fun o => (layer, o)))

/-- Lookup of the object a drag record points at, in a given scene. -/
def sceneLookup (s : Scene) (lid oid : String) : Option SceneObject :=
  (s.findLayer lid).bind (fun l => l.objects.find? (fun o => o.id == oid))

/-- Lookup of the first tilemap object in the scene's active layer. -/
def tilemapLookup (s : Scene) : Option SceneObject :=
  (s.findLayer s.activeLayer).bind (fun l => l.objects.find? (fun o => o.type == "tilemap"))

/-- Modelled from the spec: `snapToGridValue` is called by
handleMoveToolMove and handleScaleToolMove but its definition is not in
the sources.  Spec section 4.2: `snap(value, gridSize)` rounds to the
nearest multiple of `gridSize`, and snapping is applied only when the
snap-to-grid toggle is active (handleMoveToolMove calls it
unconditionally under the comment "Apply snap to grid if enabled", so
the toggle check lives inside the helper).  `round` on ℚ agrees with
JavaScript `Math.round` (half rounds toward positive infinity). -/
def SceneEditor.snapToGridValue (st : SceneEditor) (v : ℚ) : ℚ :=
  if st.snapToGrid then ((round (v / st.gridSize) : ℤ) : ℚ) * st.gridSize else v

/-- Modelled from the spec: `getObjectAtCoords` is called by the rotate
and scale down handlers but its definition is not in the sources.  Spec
section 4.3: scan layers topmost-first (reverse render order) and
objects last-to-first within a layer, skip invisible layers, and return
the first object whose axis-aligned bounding box contains the point;
rotation is ignored. -/
def SceneEditor.getObjectAtCoords (st : SceneEditor) (x y : ℚ) : Option SceneObject :=
  st.activeScene.layers.reverse.findSome? (fun layer =>
    if layer.visible then
      layer.objects.reverse.find? (fun o =>
        decide (o.x ≤ x ∧ x ≤ o.x + o.width ∧ o.y ≤ y ∧ y ≤ o.y + o.height))
    else none)

/-- Method handleMoveToolMove: while dragging, each captured object is
re-positioned at its start position plus the screen delta divided by the
zoom, snapped; otherwise panning shifts the pan offset by the raw
delta. -/
def SceneEditor.handleMoveToolMove (st : SceneEditor) (deltaX deltaY : ℚ) : SceneEditor :=
  match st.dragInfo with
  | some info =>
    let scene := info.objects.foldl (fun sc objInfo =>
      sc.updateLayer objInfo.layerId (fun layer =>
        layer.updateObject (fun o => o.id == objInfo.id) (fun o =>
          { o with
            x := st.snapToGridValue (objInfo.startX + deltaX / st.zoom)
            y := st.snapToGridValue (objInfo.startY + deltaY / st.zoom) }))) st.activeScene
    { st with activeScene := scene }
  | none =>
    if st.isPanning then
      { st with panOffset := (st.panOffset.1 + deltaX, st.panOffset.2 + deltaY) }
    else st

/-- Method handleMoveToolUp: clears the drag info and the panning flag. -/
def SceneEditor.handleMoveToolUp (st : SceneEditor) (_coords : ℚ × ℚ) : SceneEditor :=
  { st with dragInfo := none, isPanning := false }

/-- Method handleRotateToolDown.  The angle primitive
`Math.atan2(dy, dx) * 180 / Math.PI` is transcendental, so it is passed
as the parameter `atanDeg` (taking dy then dx, in degrees) and every
piece of arithmetic around it follows the source. -/
def SceneEditor.handleRotateToolDown (atanDeg : ℚ → ℚ → ℚ) (st : SceneEditor)
    (coords : ℚ × ℚ) : SceneEditor :=
  match st.getObjectAtCoords coords.1 coords.2 with
  | none => st
  | some hitObj =>
    let selected :=
      if st.selectedObjects.contains hitObj.id then st.selectedObjects else [hitObj.id]
    let infos := selected.filterMap (fun oid =>
      (st.activeScene.findObjectWithLayer oid).map (fun lo =>
        let centerX := lo.2.x + lo.2.width / 2
        let centerY := lo.2.y + lo.2.height / 2
        { id := oid
          layerId := lo.1.id
          centerX := centerX
          centerY := centerY
          startRotation := lo.2.rotation
          initialAngle := atanDeg (coords.2 - centerY) (coords.1 - centerX) : RotateObjInfo }))
    { st with selectedObjects := selected, rotateInfo := some ⟨infos⟩ }

/-- Per-object body of the loop in handleRotateToolMove. -/
def rotateObjectUpdate (atanDeg : ℚ → ℚ → ℚ) (st : SceneEditor) (oi : RotateObjInfo)
    (coords : ℚ × ℚ) (o : SceneObject) : SceneObject :=
  let currentAngle := atanDeg (coords.2 - oi.centerY) (coords.1 - oi.centerX)
  let angleDiff := currentAngle - oi.initialAngle
  let r := oi.startRotation + angleDiff
  { o with rotation := if st.snapToGrid then ((round (r / 15) : ℤ) : ℚ) * 15 else r }

/-- Method handleRotateToolMove: while rotating, each captured object's
rotation becomes its start rotation plus the difference between the
current pointer angle and the initial pointer angle, snapped to
15-degree steps when snap-to-grid is on. -/
def SceneEditor.handleRotateToolMove (atanDeg : ℚ → ℚ → ℚ) (st : SceneEditor)
    (coords : ℚ × ℚ) : SceneEditor :=
  match st.rotateInfo with
  | some info =>
    let scene := info.objects.foldl (fun sc oi =>
      sc.updateLayer oi.layerId (fun layer =>
        layer.updateObject (fun o => o.id == oi.id)
          (rotateObjectUpdate atanDeg st oi coords))) st.activeScene
    { st with activeScene := scene }
  | none => st

/-- Method handleRotateToolUp: clears the rotate info. -/
def SceneEditor.handleRotateToolUp (st : SceneEditor) (_coords : ℚ × ℚ) : SceneEditor :=
  { st with rotateInfo := none }

/-- Method handleScaleToolDown. -/
def SceneEditor.handleScaleToolDown (st : SceneEditor) (coords : ℚ × ℚ) : SceneEditor :=
  match st.getObjectAtCoords coords.1 coords.2 with
  | none => st
  | some hitObj =>
    let selected :=
      if st.selectedObjects.contains hitObj.id then st.selectedObjects else [hitObj.id]
    let infos := selected.filterMap (fun oid =>
      (st.activeScene.findObjectWithLayer oid).map (fun lo =>
        { id := oid
          layerId := lo.1.id
          startX := lo.2.x
          startY := lo.2.y
          startWidth := lo.2.width
          startHeight := lo.2.height
          startMouseX := coords.1
          startMouseY := coords.2 : ScaleObjInfo }))
    { st with selectedObjects := selected, scaleInfo := some ⟨infos⟩ }

/-- Per-object body of the loop in handleScaleToolMove.  Note that ℚ
division makes a zero denominator yield 0 where IEEE arithmetic yields a
non-finite value; the non-finite behaviour is analysed separately with
`jsScaleNewWidth` below. -/
def scaleObjectUpdate (st : SceneEditor) (oi : ScaleObjInfo) (coords : ℚ × ℚ)
    (o : SceneObject) : SceneObject :=
  let scaleX := (coords.1 - oi.startX) / (oi.startMouseX - oi.startX)
  let scaleY := (coords.2 - oi.startY) / (oi.startMouseY - oi.startY)
  let w1 := max 10 (oi.startWidth * scaleX)
  let h1 := max 10 (oi.startHeight * scaleY)
  { o with
    width := if st.snapToGrid then st.snapToGridValue w1 else w1
    height := if st.snapToGrid then st.snapToGridValue h1 else h1 }

/-- Method handleScaleToolMove: while scaling, each captured object's
width and height become the start size times the per-axis scale factor,
floored at 10, then snapped when snap-to-grid is on. -/
def SceneEditor.handleScaleToolMove (st : SceneEditor) (coords : ℚ × ℚ) : SceneEditor :=
  match st.scaleInfo with
  | some info =>
    let scene := info.objects.foldl (fun sc oi =>
      sc.updateLayer oi.layerId (fun layer =>
        layer.updateObject (fun o => o.id == oi.id)
          (scaleObjectUpdate st oi coords))) st.activeScene
    { st with activeScene := scene }
  | none => st

/-- Method handleScaleToolUp: clears the scale info. -/
def SceneEditor.handleScaleToolUp (st : SceneEditor) (_coords : ℚ × ℚ) : SceneEditor :=
  { st with scaleInfo := none }

/-- Tilemap object lazily created by handleTileToolDown when the active
layer has none: sized to the scene, with a 32-pixel tile size and
tileData filled with rows times columns zeros. -/
def SceneEditor.newTilemap (st : SceneEditor) (ts : String) : SceneObject :=
  { id := "tilemap_" ++ toString st.nowMs
    type := "tilemap"
    name := "Tilemap"
    x := 0
    y := 0
    width := st.activeScene.width
    height := st.activeScene.height
    rotation := 0
    tileSize := 32
    columns := ⌈st.activeScene.width / 32⌉
    rows := ⌈st.activeScene.height / 32⌉
    tileset := ts
    tileData := List.replicate (⌈st.activeScene.height / 32⌉ * ⌈st.activeScene.width / 32⌉).toNat 0 }

/-- Method handleTileToolDown: bails out when no tileset is selected or
the active layer is missing; otherwise finds the first tilemap in the
active layer, lazily creating and inserting one when absent; then
computes the tile cell under the pointer, bails out when the cell is out
of bounds, and otherwise writes the selected tile value at the row-major
flat index and remembers the painted cell. -/
def SceneEditor.handleTileToolDown (st : SceneEditor) (coords : ℚ × ℚ) : SceneEditor :=
  match st.appTileset with
  | none => st
  | some ts =>
    match st.activeScene.findLayer st.activeScene.activeLayer with
    | none => st
    | some activeLayer =>
      let found := activeLayer.objects.find? (fun o => o.type == "tilemap")
      let tilemap := match found with
        | some tm => tm
        | none => st.newTilemap ts
      let scene1 := match found with
        | some _ => st.activeScene
        | none =>
          st.activeScene.updateLayer activeLayer.id (fun l =>
            { l with objects := l.objects ++ [st.newTilemap ts] })
      let tileX : ℤ := ⌊(coords.1 - tilemap.x) / tilemap.tileSize⌋
      let tileY : ℤ := ⌊(coords.2 - tilemap.y) / tilemap.tileSize⌋
      if tileX < 0 ∨ tilemap.columns ≤ tileX ∨ tileY < 0 ∨ tilemap.rows ≤ tileY then
        { st with activeScene := scene1 }
      else
        let tileIndex := tileY * tilemap.columns + tileX
        let scene2 := scene1.updateLayer activeLayer.id (fun l =>
          l.updateObject (fun o => o.type == "tilemap") (fun o =>
            { o with tileData := jsSetIdx o.tileData tileIndex.toNat (jsOrOne st.appSelectedTile) }))
        { st with activeScene := scene2, lastPlacedTile := some (tileX, tileY) }

/-- Method handleTileToolMove: does nothing unless a drag is in
progress; bails out when the active layer is missing, when the active
layer has no tilemap, when the computed cell is out of bounds, or when
the cell equals the last painted cell; otherwise writes the selected
tile value and updates the last painted cell. -/
def SceneEditor.handleTileToolMove (st : SceneEditor) (coords : ℚ × ℚ) : SceneEditor :=
  if !st.isDragging then st
  else
    match st.activeScene.findLayer st.activeScene.activeLayer with
    | none => st
    | some activeLayer =>
      match activeLayer.objects.find? (fun o => o.type == "tilemap") with
      | none => st
      | some tilemap =>
        let tileX : ℤ := ⌊(coords.1 - tilemap.x) / tilemap.tileSize⌋
        let tileY : ℤ := ⌊(coords.2 - tilemap.y) / tilemap.tileSize⌋
        if tileX < 0 ∨ tilemap.columns ≤ tileX ∨ tileY < 0 ∨ tilemap.rows ≤ tileY then st
        else if st.lastPlacedTile == some (tileX, tileY) then st
        else
          let tileIndex := tileY * tilemap.columns + tileX
          let scene2 := st.activeScene.updateLayer activeLayer.id (fun l =>
            l.updateObject (fun o => o.type == "tilemap") (fun o =>
              { o with tileData := jsSetIdx o.tileData tileIndex.toNat (jsOrOne st.appSelectedTile) }))
          { st with activeScene := scene2, lastPlacedTile := some (tileX, tileY) }

/-- Method handleTileToolUp: clears the last painted cell. -/
def SceneEditor.handleTileToolUp (st : SceneEditor) (_coords : ℚ × ℚ) : SceneEditor :=
  { st with lastPlacedTile := none }

/-- Screen-space position of the scene's top-left corner as computed at
the start of the render method: the scene is centred on the drawing
surface at the current zoom, then shifted by the pan offset. -/
def SceneEditor.renderScenePos (st : SceneEditor) (cw ch : ℚ) : ℚ × ℚ :=
  let sceneWidth := st.activeScene.width * st.zoom
  let sceneHeight := st.activeScene.height * st.zoom
  ((cw - sceneWidth) / 2 + st.panOffset.1, (ch - sceneHeight) / 2 + st.panOffset.2)

/-- IEEE-754-style extended number: not-a-number, the two infinities, or
a finite value (finite values modelled as rationals).  Used to analyse
the scale tool's division on the one path where rational arithmetic is
not faithful to JavaScript, namely a zero denominator. -/
inductive JSNum where
  | nan : JSNum
  | posInf : JSNum
  | negInf : JSNum
  | fin : ℚ → JSNum
deriving Repr, DecidableEq

/-- Subtraction on extended numbers. -/
def JSNum.sub : JSNum → JSNum → JSNum
  | nan, _ => nan
  | _, nan => nan
  | posInf, posInf => nan
  | posInf, _ => posInf
  | negInf, negInf => nan
  | negInf, _ => negInf
  | fin _, posInf => negInf
  | fin _, negInf => posInf
  | fin a, fin b => fin (a - b)

/-- Division on extended numbers.  A zero divisor stands for IEEE
positive zero, as produced by subtracting a number from itself. -/
def JSNum.div : JSNum → JSNum → JSNum
  | nan, _ => nan
  | _, nan => nan
  | posInf, posInf => nan
  | posInf, negInf => nan
  | negInf, posInf => nan
  | negInf, negInf => nan
  | posInf, fin b => if b < 0 then negInf else posInf
  | negInf, fin b => if b < 0 then posInf else negInf
  | fin _, posInf => fin 0
  | fin _, negInf => fin 0
  | fin a, fin b =>
      if b = 0 then (if a = 0 then nan else if 0 < a then posInf else negInf)
      else fin (a / b)

/-- Multiplication on extended numbers. -/
def JSNum.mul : JSNum → JSNum → JSNum
  | nan, _ => nan
  | _, nan => nan
  | posInf, posInf => posInf
  | posInf, negInf => negInf
  | negInf, posInf => negInf
  | negInf, negInf => posInf
  | posInf, fin b => if b = 0 then nan else if 0 < b then posInf else negInf
  | negInf, fin b => if b = 0 then nan else if 0 < b then negInf else posInf
  | fin a, posInf => if a = 0 then nan else if 0 < a then posInf else negInf
  | fin a, negInf => if a = 0 then nan else if 0 < a then negInf else posInf
  | fin a, fin b => fin (a * b)

/-- JavaScript Math.max on extended numbers: any NaN argument wins,
otherwise the larger value. -/
def JSNum.maxJ : JSNum → JSNum → JSNum
  | nan, _ => nan
  | _, nan => nan
  | posInf, _ => posInf
  | _, posInf => posInf
  | negInf, b => b
  | a, negInf => a
  | fin a, fin b => fin (max a b)

/-- JavaScript Math.round on extended numbers. -/
def JSNum.roundJ : JSNum → JSNum
  | nan => nan
  | posInf => posInf
  | negInf => negInf
  | fin a => fin ((round a : ℤ) : ℚ)

/-- Finiteness test for extended numbers. -/
def JSNum.isFin : JSNum → Bool
  | fin _ => true
  | _ => false

/-- Scale factor of handleScaleToolMove over extended numbers:
`(coords.x - startX) / (startMouseX - startX)`. -/
def jsScaleFactor (startX startMouseX coordsX : JSNum) : JSNum :=
  JSNum.div (JSNum.sub coordsX startX) (JSNum.sub startMouseX startX)

/-- New width per axis as computed by handleScaleToolMove, over extended
numbers: `Math.max(10, startWidth * scaleX)`, then snapped to the grid
when snap-to-grid is on. -/
def jsScaleNewWidth (startX startMouseX startWidth coordsX : JSNum)
    (snap : Bool) (grid : JSNum) : JSNum :=
  let scaleX := jsScaleFactor startX startMouseX coordsX
  let w1 := JSNum.maxJ (JSNum.fin 10) (JSNum.mul startWidth scaleX)
  if snap then JSNum.mul (JSNum.roundJ (JSNum.div w1 grid)) grid else w1

/-- Scene-wide length invariant on tilemaps: tileData has exactly
columns times rows entries. -/
def tilemapInvariant (s : Scene) : Prop :=
  ∀ l ∈ s.layers, ∀ o ∈ l.objects, o.type = "tilemap" →
    ((o.tileData.length : ℤ) = o.columns * o.rows)

instance tilemapInvariantDec (s : Scene) : Decidable (tilemapInvariant s) := by
  unfold tilemapInvariant
  infer_instance

lemma find?_updateFirst {α : Type} (p : α → Bool) (f : α → α) (l : List α)
    (h : ∀ a, p (f a) = p a) :
    (updateFirst p f l).find? p = (l.find? p).map f := by
  induction l with
  | nil => simp [updateFirst]
  | cons x xs ih =>
    by_cases hx : p x
    · simp [updateFirst, hx, List.find?_cons_of_pos, h x]
    · simp only [updateFirst, hx]
      rw [if_neg (by simp [hx])]
      simp [List.find?_cons_of_neg, hx, ih]

lemma mem_updateFirst_of_find {α : Type} {p : α → Bool} {f : α → α} {l : List α} {a : α}
    (hfind : l.find? p = some a) :
    ∀ x ∈ updateFirst p f l, x ∈ l ∨ x = f a := by
  induction l with
  | nil => simp [updateFirst]
  | cons y ys ih =>
    intro x hx
    by_cases hy : p y
    · rw [List.find?_cons_of_pos _ hy] at hfind
      simp only [updateFirst, if_pos hy, List.mem_cons] at hx
      rcases hx with hx | hx
      · right; rw [hx, Option.some_inj.mp hfind]
      · left; exact List.mem_cons_of_mem _ hx
    · rw [List.find?_cons_of_neg _ hy] at hfind
      simp only [updateFirst, if_neg hy, List.mem_cons] at hx
      rcases hx with hx | hx
      · left; rw [hx]; exact List.mem_cons_self _ _
      · rcases ih hfind x hx with h | h
        · left; exact List.mem_cons_of_mem _ h
        · right; exact h

lemma length_jsSetIdx_of_lt {l : List ℤ} {i : ℕ} (v : ℤ) (h : i < l.length) :
    (jsSetIdx l i v).length = l.length := by
  simp [jsSetIdx, if_pos h]

lemma sceneLookup_updateLayer_updateObject (s : Scene) (lid oid : String)
    (f : SceneObject → SceneObject) (hf : ∀ o, (f o).id = o.id) :
    sceneLookup (s.updateLayer lid (fun l => l.updateObject (fun o => o.id == oid) f)) lid oid
      = (sceneLookup s lid oid).map f := by
  unfold sceneLookup Scene.findLayer Scene.updateLayer
  simp only
  rw [find?_updateFirst (fun l => l.id == lid) _ s.layers
    (fun l => by simp [Layer.updateObject])]
  cases hfind : s.layers.find? (fun l => l.id == lid) with
  | none => simp
  | some layer =>
    simp only [Option.map_some', Option.some_bind, Layer.updateObject]
    rw [find?_updateFirst (fun o => o.id == oid) f layer.objects (fun o => by simp [hf o])]

/-- Concrete rectangle object used by the example states. -/
def objA : SceneObject :=
  { id := "A", type := "rectangle", name := "Rect", x := 0, y := 0,
    width := 100, height := 100, rotation := 0, tileSize := 0,
    columns := 0, rows := 0, tileset := "", tileData := [] }

/-- Concrete tilemap used by the example states: 10 by 10 cells of size
32 at the scene origin. -/
def tilemapObj : SceneObject :=
  { id := "TM", type := "tilemap", name := "Tilemap", x := 0, y := 0,
    width := 320, height := 320, rotation := 0, tileSize := 32,
    columns := 10, rows := 10, tileset := "ts1", tileData := List.replicate 100 0 }

/-- Concrete layer holding the rectangle. -/
def layerL : Layer := { id := "L", name := "Main", visible := true, objects := [objA] }

/-- Concrete layer holding the tilemap. -/
def layerTM : Layer := { id := "L", name := "Main", visible := true, objects := [tilemapObj] }

/-- Concrete 800 by 600 scene whose active layer holds the rectangle. -/
def sceneS : Scene :=
  { id := "s1", name := "Scene", width := 800, height := 600,
    backgroundColor := "#87CEEB", layers := [layerL], activeLayer := "L" }

/-- Concrete scene whose active layer holds the tilemap. -/
def sceneTM : Scene := { sceneS with layers := [layerTM] }

/-- Baseline editor state matching the constructor defaults, over the
concrete scene. -/
def baseState : SceneEditor :=
  { activeScene := sceneS, selectedObjects := [], gridSize := 32,
    showGrid := true, snapToGrid := true, zoom := 1, panOffset := (0, 0),
    isDragging := false, isPanning := false, activeTool := "select",
    dragInfo := none, rotateInfo := none, scaleInfo := none,
    lastPlacedTile := none, appTileset := none, appSelectedTile := none,
    nowMs := 7 }

/-- In-flight move-tool drag capture used by the example states. -/
def dragW : DragInfo := ⟨[⟨"A", "L", 0, 0⟩]⟩

/-- State in the middle of a move drag with every transient tool field
populated, used to examine tool switching. -/
def stC1 : SceneEditor :=
  { baseState with
    activeTool := "move"
    dragInfo := some dragW
    rotateInfo := some ⟨[⟨"A", "L", 50, 50, 0, 90⟩]⟩
    scaleInfo := some ⟨[⟨"A", "L", 0, 0, 100, 100, 50, 50⟩]⟩
    lastPlacedTile := some (1, 2) }

/-- Scale drag whose start pointer was at scene point (100, 100) on the
100 by 100 rectangle, with snap-to-grid on (grid 32). -/
def stC2c : SceneEditor :=
  { baseState with scaleInfo := some ⟨[⟨"A", "L", 0, 0, 100, 100, 100, 100⟩]⟩ }

/-- Scale drag as in stC2c but with snap-to-grid off and start pointer
at (50, 50). -/
def stC2w : SceneEditor :=
  { baseState with
    snapToGrid := false
    scaleInfo := some ⟨[⟨"A", "L", 0, 0, 100, 100, 50, 50⟩]⟩ }

/-- Expected rectangle after the stC2w scale move to (25, 25). -/
def objC2w : SceneObject := { objA with width := 50, height := 50 }

/-- Move drag of the rectangle from (0, 0) at zoom 2 with snapping on. -/
def stC3w : SceneEditor :=
  { baseState with zoom := 2, dragInfo := some dragW }

/-- Expected rectangle after the stC3w move by screen delta (32, 32). -/
def objC3w : SceneObject := { objA with x := 32, y := 32 }

/-- State with a selected tileset but no tilemap in the active layer. -/
def stC5 : SceneEditor := { baseState with appTileset := some "ts1" }

/-- State with the tilemap scene, a selected tileset, and a drag in
progress. -/
def stTM : SceneEditor :=
  { baseState with
    activeScene := sceneTM
    appTileset := some "ts1"
    appSelectedTile := some 5
    isDragging := true }

/-- State whose active layer id matches no layer. -/
def stNoLayer : SceneEditor :=
  { baseState with
    activeScene := { sceneS with activeLayer := "missing" }
    appTileset := some "ts1"
    isDragging := true }

/-- State with the tilemap scene and the empty tile index 0 selected. -/
def stTileZero : SceneEditor := { stTM with appSelectedTile := some 0 }

/-- Rotate-demo state: the rectangle is selected and the rotate tool has
not yet captured anything. -/
def stC6 : SceneEditor :=
  { baseState with snapToGrid := false, selectedObjects := ["A"], activeTool := "rotate" }

/-- Rotate-drag state with a captured object whose initial pointer angle
was 180 degrees, snap off. -/
def stC6w : SceneEditor :=
  { baseState with
    snapToGrid := false
    selectedObjects := ["A"]
    rotateInfo := some ⟨[⟨"A", "L", 50, 50, 0, 180⟩]⟩ }

/-- Expected rectangle after the stC6w rotate move. -/
def objC6w : SceneObject := { objA with rotation := -180 }

/-- State used to exercise tile painting on a fresh scene. -/
def stC7w : SceneEditor :=
  { baseState with appTileset := some "ts1", appSelectedTile := some 3 }

/-- State for the coordinate-mapper example: 800 by 600 scene at zoom 1
with no pan. -/
def stC8w : SceneEditor := baseState

lemma tilemapLookup_after_write (s : Scene) (aL : Layer)
    (f : SceneObject → SceneObject) (hf : ∀ o, (f o).type = o.type)
    (hal : s.findLayer s.activeLayer = some aL) :
    tilemapLookup (s.updateLayer aL.id (fun l =>
        l.updateObject (fun o => o.type == "tilemap") f))
      = (aL.objects.find? (fun o => o.type == "tilemap")).map f := by
  have hid : aL.id = s.activeLayer := by
    have := List.find?_some hal
    simpa using this
  unfold tilemapLookup Scene.findLayer Scene.updateLayer
  simp only [hid]
  rw [find?_updateFirst (fun l => l.id == s.activeLayer) _ s.layers
    (fun l => by simp [Layer.updateObject])]
  unfold Scene.findLayer at hal
  rw [hal]
  simp only [Option.map_some', Option.some_bind, Layer.updateObject]
  rw [find?_updateFirst (fun o => o.type == "tilemap") f aL.objects
    (fun o => by simp [hf o])]

lemma tileToolDown_write (st : SceneEditor) (p : ℚ × ℚ) (ts : String) (aL : Layer)
    (tm : SceneObject)
    (hts : st.appTileset = some ts)
    (hal : st.activeScene.findLayer st.activeScene.activeLayer = some aL)
    (htm : aL.objects.find? (fun o => o.type == "tilemap") = some tm)
    (hc0 : 0 ≤ ⌊(p.1 - tm.x) / tm.tileSize⌋)
    (hc1 : ⌊(p.1 - tm.x) / tm.tileSize⌋ < tm.columns)
    (hr0 : 0 ≤ ⌊(p.2 - tm.y) / tm.tileSize⌋)
    (hr1 : ⌊(p.2 - tm.y) / tm.tileSize⌋ < tm.rows) :
    st.handleTileToolDown p =
      { st with
        activeScene := st.activeScene.updateLayer aL.id (fun l =>
          l.updateObject (fun o => o.type == "tilemap") (fun o =>
            { o with tileData := (jsSetIdx o.tileData
                (⌊(p.2 - tm.y) / tm.tileSize⌋ * tm.columns + ⌊(p.1 - tm.x) / tm.tileSize⌋).toNat
                (jsOrOne st.appSelectedTile)) }))
        lastPlacedTile := some (⌊(p.1 - tm.x) / tm.tileSize⌋, ⌊(p.2 - tm.y) / tm.tileSize⌋) } := by
  unfold SceneEditor.handleTileToolDown
  rw [hts, hal]
  simp only [htm]
  rw [if_neg]
  push_neg
  exact ⟨hc0, hc1, hr0, hr1⟩

lemma tileToolMove_write (st : SceneEditor) (p : ℚ × ℚ) (aL : Layer) (tm : SceneObject)
    (hdrag : st.isDragging = true)
    (hal : st.activeScene.findLayer st.activeScene.activeLayer = some aL)
    (htm : aL.objects.find? (fun o => o.type == "tilemap") = some tm)
    (hc0 : 0 ≤ ⌊(p.1 - tm.x) / tm.tileSize⌋)
    (hc1 : ⌊(p.1 - tm.x) / tm.tileSize⌋ < tm.columns)
    (hr0 : 0 ≤ ⌊(p.2 - tm.y) / tm.tileSize⌋)
    (hr1 : ⌊(p.2 - tm.y) / tm.tileSize⌋ < tm.rows)
    (hlast : st.lastPlacedTile ≠ some (⌊(p.1 - tm.x) / tm.tileSize⌋, ⌊(p.2 - tm.y) / tm.tileSize⌋)) :
    st.handleTileToolMove p =
      { st with
        activeScene := st.activeScene.updateLayer aL.id (fun l =>
          l.updateObject (fun o => o.type == "tilemap") (fun o =>
            { o with tileData := (jsSetIdx o.tileData
                (⌊(p.2 - tm.y) / tm.tileSize⌋ * tm.columns + ⌊(p.1 - tm.x) / tm.tileSize⌋).toNat
                (jsOrOne st.appSelectedTile)) }))
        lastPlacedTile := some (⌊(p.1 - tm.x) / tm.tileSize⌋, ⌊(p.2 - tm.y) / tm.tileSize⌋) } := by
  unfold SceneEditor.handleTileToolMove
  rw [hdrag, hal]
  simp only [htm, Bool.not_true, Bool.false_eq_true, if_false]
  rw [if_neg, if_neg]
  · simp only [beq_iff_eq]
    exact hlast
  · push_neg
    exact ⟨hc0, hc1, hr0, hr1⟩

lemma get?_jsSetIdx_self {l : List ℤ} {i : ℕ} (v : ℤ) (h : i < l.length) :
    (jsSetIdx l i v).get? i = some v := by
  simp [jsSetIdx, if_pos h, List.get?_eq_getElem?, List.getElem?_set_self, h]

lemma jsOrOne_ne_zero (s : Option ℤ) : jsOrOne s ≠ 0 := by
  cases s with
  | none => simp [jsOrOne]
  | some v =>
    simp only [jsOrOne]
    split_ifs with h
    · norm_num
    · exact h

lemma idx_toNat_lt {col row columns rows : ℤ} {n : ℕ}
    (hlen : (n : ℤ) = columns * rows)
    (hc0 : 0 ≤ col) (hc1 : col < columns) (hr0 : 0 ≤ row) (hr1 : row < rows) :
    (row * columns + col).toNat < n := by
  have hcols : 0 < columns := lt_of_le_of_lt hc0 hc1
  have h1 : 0 ≤ row * columns + col := by positivity
  have hstep : columns * (row + 1) ≤ columns * rows :=
    mul_le_mul_of_nonneg_left (by linarith) (le_of_lt hcols)
  have h2 : row * columns + col < columns * rows := by nlinarith
  have h3 : row * columns + col < (n : ℤ) := by rw [hlen]; exact h2
  omega

lemma newTilemap_len (st : SceneEditor) (ts : String)
    (hw : 0 ≤ st.activeScene.width) (hh : 0 ≤ st.activeScene.height) :
    (((st.newTilemap ts).tileData.length : ℤ)
      = (st.newTilemap ts).columns * (st.newTilemap ts).rows) := by
  have hcw : (0 : ℤ) ≤ ⌈st.activeScene.width / 32⌉ :=
    Int.ceil_nonneg (by positivity)
  have hch : (0 : ℤ) ≤ ⌈st.activeScene.height / 32⌉ :=
    Int.ceil_nonneg (by positivity)
  simp only [SceneEditor.newTilemap, List.length_replicate]
  rw [Int.toNat_of_nonneg (mul_nonneg hch hcw)]
  ring

lemma tilemapInvariant_write (s : Scene) (aL : Layer) (tm : SceneObject) (i : ℕ) (v : ℤ)
    (hal : s.findLayer s.activeLayer = some aL)
    (htm : aL.objects.find? (fun o => o.type == "tilemap") = some tm)
    (hinv : tilemapInvariant s)
    (hi : i < tm.tileData.length) :
    tilemapInvariant (s.updateLayer aL.id (fun l =>
      l.updateObject (fun o => o.type == "tilemap") (fun o =>
        { o with tileData := (jsSetIdx o.tileData i v) }))) := by
  have hmem : aL ∈ s.layers := List.mem_of_find?_eq_some hal
  have hid : aL.id = s.activeLayer := by simpa using List.find?_some hal
  have hfindL : s.layers.find? (fun l => l.id == aL.id) = some aL := by
    rw [hid]; exact hal
  intro l hl o ho hty
  rcases mem_updateFirst_of_find hfindL l hl with h | h
  · exact hinv l h o ho hty
  · subst h
    simp only [Layer.updateObject] at ho
    rcases mem_updateFirst_of_find htm o ho with h2 | h2
    · exact hinv aL hmem o h2 hty
    · subst h2
      have htmmem : tm ∈ aL.objects := List.mem_of_find?_eq_some htm
      have htmty : tm.type = "tilemap" := by simpa using List.find?_some htm
      have hlen := hinv aL hmem tm htmmem htmty
      simpa [length_jsSetIdx_of_lt v hi] using hlen

lemma tilemapInvariant_append (s : Scene) (aL : Layer) (ntm : SceneObject)
    (hal : s.findLayer s.activeLayer = some aL)
    (hinv : tilemapInvariant s)
    (hlen : (ntm.tileData.length : ℤ) = ntm.columns * ntm.rows) :
    tilemapInvariant (s.updateLayer aL.id (fun l =>
      { l with objects := l.objects ++ [ntm] })) := by
  have hmem : aL ∈ s.layers := List.mem_of_find?_eq_some hal
  have hid : aL.id = s.activeLayer := by simpa using List.find?_some hal
  have hfindL : s.layers.find? (fun l => l.id == aL.id) = some aL := by
    rw [hid]; exact hal
  intro l hl o ho hty
  rcases mem_updateFirst_of_find hfindL l hl with h | h
  · exact hinv l h o ho hty
  · subst h
    simp only [List.mem_append, List.mem_singleton] at ho
    rcases ho with h2 | h2
    · exact hinv aL hmem o h2 hty
    · subst h2
      exact hlen

/-- C1 (counterexample): switching the active tool away from an
in-progress move drag does not discard the drag state, and neither does
loading a new scene: after `setActiveTool "rotate"` on a state holding
move-drag, rotate, scale and tile-paint transients, the tool really
changes yet `dragInfo` and `lastPlacedTile` survive, and `onLoadScene`
also keeps `dragInfo`. -/
theorem claim_C1_cex :
    (stC1.setActiveTool "rotate").activeTool = "rotate" ∧
    (stC1.setActiveTool "rotate").dragInfo = some dragW ∧
    (stC1.setActiveTool "rotate").lastPlacedTile = some (1, 2) ∧
    (stC1.onLoadScene sceneS).dragInfo = some dragW := by
  refine ⟨rfl, rfl, rfl, rfl⟩

/-- C1 (amended): `setActiveTool` and `onLoadScene` leave every
transient drag field (`dragInfo`, `rotateInfo`, `scaleInfo`,
`lastPlacedTile`) exactly as it was; the transients are cleared only by
the matching pointer-up handlers. -/
theorem claim_C1_thm (st : SceneEditor) (toolId : String) (scene : Scene) (c : ℚ × ℚ) :
    ((st.setActiveTool toolId).dragInfo = st.dragInfo ∧
     (st.setActiveTool toolId).rotateInfo = st.rotateInfo ∧
     (st.setActiveTool toolId).scaleInfo = st.scaleInfo ∧
     (st.setActiveTool toolId).lastPlacedTile = st.lastPlacedTile) ∧
    ((st.onLoadScene scene).dragInfo = st.dragInfo ∧
     (st.onLoadScene scene).rotateInfo = st.rotateInfo ∧
     (st.onLoadScene scene).scaleInfo = st.scaleInfo ∧
     (st.onLoadScene scene).lastPlacedTile = st.lastPlacedTile) ∧
    ((st.handleMoveToolUp c).dragInfo = none ∧
     (st.handleRotateToolUp c).rotateInfo = none ∧
     (st.handleScaleToolUp c).scaleInfo = none ∧
     (st.handleTileToolUp c).lastPlacedTile = none) := by
  unfold SceneEditor.setActiveTool SceneEditor.onLoadScene SceneEditor.handleMoveToolUp
    SceneEditor.handleRotateToolUp SceneEditor.handleScaleToolUp SceneEditor.handleTileToolUp
  refine ⟨?_, ⟨rfl, rfl, rfl, rfl⟩, rfl, rfl, rfl, rfl⟩
  refine ⟨?_, ?_, ?_, ?_⟩ <;> (split <;> rfl)

/-- C8: the rendered scene's top-left corner in screen space is
`((cw - sceneWidth * zoom) / 2 + panX, (ch - sceneHeight * zoom) / 2 + panY)`
for every zoom, pan and surface size, and for an 800 by 600 scene at
zoom 1 with no pan on an 800 by 600 surface the scene origin maps to
screen (0, 0). -/
theorem claim_C8_thm (st : SceneEditor) (cw ch : ℚ) :
    st.renderScenePos cw ch =
      ((cw - st.activeScene.width * st.zoom) / 2 + st.panOffset.1,
       (ch - st.activeScene.height * st.zoom) / 2 + st.panOffset.2) ∧
    (st.activeScene.width = 800 → st.activeScene.height = 600 → st.zoom = 1 →
      st.panOffset = (0, 0) → cw = 800 → ch = 600 →
      st.renderScenePos cw ch = (0, 0)) := by
  constructor
  · rfl
  · intro hw hh hz hp hcw hch
    simp [SceneEditor.renderScenePos, hw, hh, hz, hp, hcw, hch]

/-- C8 (witness): the default 800 by 600 state on an 800 by 600 surface
places the scene origin at screen (0, 0). -/
theorem claim_C8_wit : stC8w.renderScenePos 800 600 = (0, 0) :=
  (claim_C8_thm stC8w 800 600).2 rfl rfl rfl rfl rfl rfl

/-- C9 (counterexample): with the drag started exactly on the object's
x (startMouseX = startX = 0) and the pointer moved to the left
(coords.x = -1 < 0), the scale factor is indeed non-finite, but the
width written is the clamped finite value 10 (Math.max(10, -Infinity)),
not NaN or an infinity as the claim states. -/
theorem claim_C9_cex :
    (jsScaleFactor (JSNum.fin 0) (JSNum.fin 0) (JSNum.fin (-1))).isFin = false ∧
    jsScaleNewWidth (JSNum.fin 0) (JSNum.fin 0) (JSNum.fin 50) (JSNum.fin (-1))
      false (JSNum.fin 32) = JSNum.fin 10 := by
  constructor
  · norm_num [jsScaleFactor, JSNum.sub, JSNum.div, JSNum.isFin]
  · norm_num [jsScaleNewWidth, jsScaleFactor, JSNum.sub, JSNum.div, JSNum.mul, JSNum.maxJ]

/-- C9 (amended): when a scale drag begins with the pointer x exactly on
the object's x, the scale factor is always non-finite; the width written
is NaN when the pointer stays at that x and positive infinity when the
pointer is strictly to the right (for a positive start width and grid),
while a pointer strictly to the left yields a finite width because
Math.max clamps negative infinity to 10. -/
theorem claim_C9_thm (a w c g : ℚ) (snap : Bool) (hw : 0 < w) (hg : 0 < g) :
    (jsScaleFactor (JSNum.fin a) (JSNum.fin a) (JSNum.fin c)).isFin = false ∧
    (c = a → jsScaleNewWidth (JSNum.fin a) (JSNum.fin a) (JSNum.fin w) (JSNum.fin c)
      snap (JSNum.fin g) = JSNum.nan) ∧
    (a < c → jsScaleNewWidth (JSNum.fin a) (JSNum.fin a) (JSNum.fin w) (JSNum.fin c)
      snap (JSNum.fin g) = JSNum.posInf) ∧
    (c < a → (jsScaleNewWidth (JSNum.fin a) (JSNum.fin a) (JSNum.fin w) (JSNum.fin c)
      snap (JSNum.fin g)).isFin = true) := by
  have hwz : ¬ w = 0 := ne_of_gt hw
  have hgz : ¬ g = 0 := ne_of_gt hg
  have hgneg : ¬ g < 0 := not_lt.mpr (le_of_lt hg)
  refine ⟨?_, ?_, ?_, ?_⟩
  · unfold jsScaleFactor
    simp only [JSNum.sub, sub_self, JSNum.div, if_pos rfl]
    split_ifs <;> simp [JSNum.isFin]
  · intro hca
    subst hca
    unfold jsScaleNewWidth jsScaleFactor
    simp only [JSNum.sub, sub_self, JSNum.div, if_pos rfl]
    cases snap <;> simp [JSNum.mul, JSNum.maxJ, JSNum.roundJ, JSNum.div]
  · intro hac
    have h1 : ¬ (c - a = 0) := sub_ne_zero.mpr (ne_of_gt hac)
    have h2 : 0 < c - a := sub_pos.mpr hac
    unfold jsScaleNewWidth jsScaleFactor
    simp only [JSNum.sub, sub_self, JSNum.div, if_pos rfl, if_neg h1, if_pos h2]
    cases snap <;>
      simp [JSNum.mul, hwz, hw, JSNum.maxJ, JSNum.roundJ, JSNum.div, hgneg, hgz, hg]
  · intro hca
    have h1 : ¬ (c - a = 0) := sub_ne_zero.mpr (ne_of_lt hca)
    have h2 : ¬ 0 < c - a := not_lt.mpr (le_of_lt (sub_neg.mpr hca))
    unfold jsScaleNewWidth jsScaleFactor
    simp only [JSNum.sub, sub_self, JSNum.div, if_pos rfl, if_neg h1, if_neg h2]
    cases snap <;>
      simp [JSNum.mul, hwz, hw, not_lt.mpr (le_of_lt hw), JSNum.maxJ, JSNum.roundJ,
        JSNum.div, hgz, JSNum.isFin]

/-- C9 (witness): a drag started at the object's x = 0 with the pointer
at x = 5 writes positive infinity into the width even with snapping on,
and the scale factor at that input is non-finite. -/
theorem claim_C9_wit :
    jsScaleNewWidth (JSNum.fin 0) (JSNum.fin 0) (JSNum.fin 100) (JSNum.fin 5)
      true (JSNum.fin 32) = JSNum.posInf ∧
    (jsScaleFactor (JSNum.fin 0) (JSNum.fin 0) (JSNum.fin 5)).isFin = false :=
  ⟨(claim_C9_thm 0 100 5 32 true (by norm_num) (by norm_num)).2.2.1 (by norm_num),
   (claim_C9_thm 0 100 5 32 true (by norm_num) (by norm_num)).1⟩

/-- C2 (counterexample): with snap-to-grid on (grid 32), a scale drag of
the 100 by 100 rectangle whose start pointer was at (100, 100) moved to
(10, 10) first floors the size at 10, then snaps 10 to
round(10 / 32) * 32 = 0, so the object's width and height end at 0,
below the claimed floor of 10. -/
theorem claim_C2_cex :
    (sceneLookup ((stC2c.handleScaleToolMove (10, 10)).activeScene) "L" "A").map
        SceneObject.width = some 0 ∧
    (sceneLookup ((stC2c.handleScaleToolMove (10, 10)).activeScene) "L" "A").map
        SceneObject.height = some 0 := by
  constructor <;>
  · simp [sceneLookup, Scene.findLayer, Scene.updateLayer, Layer.updateObject, updateFirst,
      SceneEditor.handleScaleToolMove, scaleObjectUpdate, SceneEditor.snapToGridValue,
      stC2c, baseState, sceneS, layerL, objA, List.find?, round_eq]
    norm_num

/-- C2 (amended): a scale-drag move keeps `width >= 10 && height >= 10`
when snap-to-grid is off (the `Math.max(10, _)` floor) and the drag did
not start with the pointer exactly on the object's x or y (so both
scale-factor denominators are nonzero); with snap-to-grid on the snapped
size can drop below 10, as the counterexample shows. -/
theorem claim_C2_thm (st : SceneEditor) (oi : ScaleObjInfo) (coords : ℚ × ℚ)
    (obj : SceneObject)
    (hsi : st.scaleInfo = some ⟨[oi]⟩)
    (hsnap : st.snapToGrid = false)
    (hdx : oi.startMouseX ≠ oi.startX)
    (hdy : oi.startMouseY ≠ oi.startY)
    (hobj : sceneLookup ((st.handleScaleToolMove coords).activeScene) oi.layerId oi.id
      = some obj) :
    10 ≤ obj.width ∧ 10 ≤ obj.height := by
  have hred : (st.handleScaleToolMove coords).activeScene =
      st.activeScene.updateLayer oi.layerId (fun l =>
        l.updateObject (fun o => o.id == oi.id) (scaleObjectUpdate st oi coords)) := by
    simp [SceneEditor.handleScaleToolMove, hsi]
  rw [hred, sceneLookup_updateLayer_updateObject st.activeScene oi.layerId oi.id
    (scaleObjectUpdate st oi coords) (fun o => rfl)] at hobj
  cases h0 : sceneLookup st.activeScene oi.layerId oi.id with
  | none => rw [h0] at hobj; simp at hobj
  | some o0 =>
    rw [h0] at hobj
    simp only [Option.map_some', Option.some_inj] at hobj
    rw [← hobj]
    constructor
    · show 10 ≤ (if st.snapToGrid then _ else _)
      rw [hsnap]
      simpa using le_max_left 10 (oi.startWidth * ((coords.1 - oi.startX) / (oi.startMouseX - oi.startX)))
    · show 10 ≤ (if st.snapToGrid then _ else _)
      rw [hsnap]
      simpa using le_max_left 10 (oi.startHeight * ((coords.2 - oi.startY) / (oi.startMouseY - oi.startY)))

/-- C2 (witness): a snap-off scale drag of the 100 by 100 rectangle from
start pointer (50, 50) to (25, 25) halves it to 50 by 50, within the
floor. -/
theorem claim_C2_wit : 10 ≤ objC2w.width ∧ 10 ≤ objC2w.height := by
  refine claim_C2_thm stC2w ⟨"A", "L", 0, 0, 100, 100, 50, 50⟩ (25, 25) objC2w rfl rfl
    (by norm_num) (by norm_num) ?_
  simp [sceneLookup, Scene.findLayer, Scene.updateLayer, Layer.updateObject, updateFirst,
    SceneEditor.handleScaleToolMove, scaleObjectUpdate, SceneEditor.snapToGridValue,
    stC2w, baseState, sceneS, layerL, objA, objC2w, List.find?]
  norm_num

/-- C3: a move-tool drag writes
`snapToGridValue(start + deltaScreen / zoom)` into the dragged object's
position, and in particular at zoom 2, grid 32, snap on, start (0, 0)
and screen delta (32, 32) the object lands at (32, 32) since
snap(16, 32) = 32. -/
theorem claim_C3_thm (st : SceneEditor) (oi : DragObjInfo) (dx dy : ℚ)
    (obj : SceneObject)
    (hdi : st.dragInfo = some ⟨[oi]⟩)
    (hobj : sceneLookup ((st.handleMoveToolMove dx dy).activeScene) oi.layerId oi.id
      = some obj) :
    (obj.x = st.snapToGridValue (oi.startX + dx / st.zoom) ∧
     obj.y = st.snapToGridValue (oi.startY + dy / st.zoom)) ∧
    (st.zoom = 2 → st.gridSize = 32 → st.snapToGrid = true → oi.startX = 0 →
      oi.startY = 0 → dx = 32 → dy = 32 → obj.x = 32 ∧ obj.y = 32) := by
  have hred : (st.handleMoveToolMove dx dy).activeScene =
      st.activeScene.updateLayer oi.layerId (fun l =>
        l.updateObject (fun o => o.id == oi.id) (fun o =>
          { o with
            x := st.snapToGridValue (oi.startX + dx / st.zoom)
            y := st.snapToGridValue (oi.startY + dy / st.zoom) })) := by
    simp [SceneEditor.handleMoveToolMove, hdi]
  rw [hred, sceneLookup_updateLayer_updateObject st.activeScene oi.layerId oi.id
    (fun o =>
      { o with
        x := st.snapToGridValue (oi.startX + dx / st.zoom)
        y := st.snapToGridValue (oi.startY + dy / st.zoom) }) (fun o => rfl)] at hobj
  cases h0 : sceneLookup st.activeScene oi.layerId oi.id with
  | none => rw [h0] at hobj; simp at hobj
  | some o0 =>
    rw [h0] at hobj
    simp only [Option.map_some', Option.some_inj] at hobj
    have hx : obj.x = st.snapToGridValue (oi.startX + dx / st.zoom) := by rw [← hobj]
    have hy : obj.y = st.snapToGridValue (oi.startY + dy / st.zoom) := by rw [← hobj]
    refine ⟨⟨hx, hy⟩, ?_⟩
    intro hz hg hs hsx hsy hdx hdy
    rw [hx, hy, hz, hsx, hsy, hdx, hdy]
    unfold SceneEditor.snapToGridValue
    rw [hs, hg]
    norm_num [round_eq]

/-- C3 (witness): the concrete drag of Scenario C lands the rectangle at
(32, 32). -/
theorem claim_C3_wit : objC3w.x = 32 ∧ objC3w.y = 32 := by
  refine (claim_C3_thm stC3w ⟨"A", "L", 0, 0⟩ 32 32 objC3w rfl ?_).2 rfl rfl rfl rfl rfl rfl rfl
  simp [sceneLookup, Scene.findLayer, Scene.updateLayer, Layer.updateObject, updateFirst,
    SceneEditor.handleMoveToolMove, SceneEditor.snapToGridValue,
    stC3w, baseState, sceneS, layerL, objA, objC3w, dragW, List.find?, round_eq]
  norm_num

/-- Concrete angle primitive agreeing with degree-valued atan2 at the
two probe points (0, 1) and (0, -1). -/
def atanDemo : ℚ → ℚ → ℚ := fun _ x => if x < 0 then 180 else 0

/-- C6: during a rotate drag the dragged object's rotation is set to
`startRotation + (currentAngle - initialAngle)` where both angles come
from the degree-valued angle primitive applied around the captured
center (the primitive `atan2 * 180 / pi` is abstracted as `A`), snapped
to 15-degree steps exactly when snap-to-grid is on; and the difference
is never normalized into [0, 360): for any angle primitive agreeing with
atan2 at the two probed points, a real down-then-move drag across the
rectangle's center yields the negative rotation -180. -/
theorem claim_C6_thm (A : ℚ → ℚ → ℚ) (st : SceneEditor) (oi : RotateObjInfo)
    (coords : ℚ × ℚ) (obj : SceneObject)
    (hri : st.rotateInfo = some ⟨[oi]⟩)
    (hobj : sceneLookup ((SceneEditor.handleRotateToolMove A st coords).activeScene)
      oi.layerId oi.id = some obj) :
    obj.rotation =
      (if st.snapToGrid then
        ((round ((oi.startRotation +
          (A (coords.2 - oi.centerY) (coords.1 - oi.centerX) - oi.initialAngle)) / 15) : ℤ) : ℚ) * 15
      else
        oi.startRotation +
          (A (coords.2 - oi.centerY) (coords.1 - oi.centerX) - oi.initialAngle)) ∧
    (A 0 1 = 0 → A 0 (-1) = 180 →
      (sceneLookup ((SceneEditor.handleRotateToolMove A
          (SceneEditor.handleRotateToolDown A stC6 (49, 50)) (51, 50)).activeScene)
        "L" "A").map SceneObject.rotation = some (-180)) := by
  constructor
  · have hred : (SceneEditor.handleRotateToolMove A st coords).activeScene =
        st.activeScene.updateLayer oi.layerId (fun l =>
          l.updateObject (fun o => o.id == oi.id) (rotateObjectUpdate A st oi coords)) := by
      simp [SceneEditor.handleRotateToolMove, hri]
    rw [hred, sceneLookup_updateLayer_updateObject st.activeScene oi.layerId oi.id
      (rotateObjectUpdate A st oi coords) (fun o => rfl)] at hobj
    cases h0 : sceneLookup st.activeScene oi.layerId oi.id with
    | none => rw [h0] at hobj; simp at hobj
    | some o0 =>
      rw [h0] at hobj
      simp only [Option.map_some', Option.some_inj] at hobj
      rw [← hobj]
      rfl
  · intro hA0 hA180
    have hdown : SceneEditor.handleRotateToolDown A stC6 (49, 50) =
        { stC6 with rotateInfo := some ⟨[⟨"A", "L", 50, 50, 0, 180⟩]⟩ } := by
      unfold SceneEditor.handleRotateToolDown
      have hhit : stC6.getObjectAtCoords 49 50 = some objA := by
        simp [SceneEditor.getObjectAtCoords, stC6, baseState, sceneS, layerL, objA,
          List.find?]
        norm_num
      rw [show ((49 : ℚ), (50 : ℚ)).1 = (49 : ℚ) from rfl,
        show ((49 : ℚ), (50 : ℚ)).2 = (50 : ℚ) from rfl, hhit]
      have hfindS : sceneS.findObjectWithLayer "A" = some (layerL, objA) := by
        simp [Scene.findObjectWithLayer, sceneS, layerL, objA, List.find?]
      simp only [stC6, baseState]
      norm_num [objA]
      rw [List.filterMap_cons, hfindS]
      simp only [Option.map_some', List.filterMap_nil]
      norm_num [layerL, objA, hA180]
    rw [hdown]
    simp [SceneEditor.handleRotateToolMove, rotateObjectUpdate, sceneLookup,
      Scene.findLayer, Scene.updateLayer, Layer.updateObject, updateFirst,
      stC6, baseState, sceneS, layerL, objA, List.find?]
    norm_num [hA0]

/-- C6 (witness): with the demo angle primitive, a rotate down at
(49, 50) then move to (51, 50) across the rectangle's center leaves the
object at rotation -180, a value outside [0, 360). -/
theorem claim_C6_wit :
    (sceneLookup ((SceneEditor.handleRotateToolMove atanDemo
        (SceneEditor.handleRotateToolDown atanDemo stC6 (49, 50)) (51, 50)).activeScene)
      "L" "A").map SceneObject.rotation = some (-180) :=
  (claim_C6_thm atanDemo stC6w ⟨"A", "L", 50, 50, 0, 180⟩ (51, 50) objC6w rfl
    (by
      simp [SceneEditor.handleRotateToolMove, rotateObjectUpdate, sceneLookup,
        Scene.findLayer, Scene.updateLayer, Layer.updateObject, updateFirst,
        stC6w, baseState, sceneS, layerL, objA, objC6w, List.find?, atanDemo]
      norm_num)).2
    (by norm_num [atanDemo]) (by norm_num [atanDemo])

/-- C4: an in-bounds tile paint targets the cell
`col = floor((p.x - tilemap.x) / tileSize)`,
`row = floor((p.y - tilemap.y) / tileSize)` and writes the selected tile
value at flat index `row * columns + col` of tileData; and for a
tilemap at the origin with tileSize 32 and columns 10, painting at
scene point (35, 67) gives col 1, row 2 and flat index 21. -/
theorem claim_C4_thm (st : SceneEditor) (p : ℚ × ℚ) (ts : String) (aL : Layer)
    (tm : SceneObject)
    (hts : st.appTileset = some ts)
    (hal : st.activeScene.findLayer st.activeScene.activeLayer = some aL)
    (htm : aL.objects.find? (fun o => o.type == "tilemap") = some tm)
    (hc0 : 0 ≤ ⌊(p.1 - tm.x) / tm.tileSize⌋)
    (hc1 : ⌊(p.1 - tm.x) / tm.tileSize⌋ < tm.columns)
    (hr0 : 0 ≤ ⌊(p.2 - tm.y) / tm.tileSize⌋)
    (hr1 : ⌊(p.2 - tm.y) / tm.tileSize⌋ < tm.rows) :
    tilemapLookup ((st.handleTileToolDown p).activeScene) =
      some { tm with tileData := (jsSetIdx tm.tileData
        (⌊(p.2 - tm.y) / tm.tileSize⌋ * tm.columns + ⌊(p.1 - tm.x) / tm.tileSize⌋).toNat
        (jsOrOne st.appSelectedTile)) } ∧
    (tm.x = 0 → tm.y = 0 → tm.tileSize = 32 → tm.columns = 10 → p = (35, 67) →
      ⌊(p.1 - tm.x) / tm.tileSize⌋ = 1 ∧ ⌊(p.2 - tm.y) / tm.tileSize⌋ = 2 ∧
      ⌊(p.2 - tm.y) / tm.tileSize⌋ * tm.columns + ⌊(p.1 - tm.x) / tm.tileSize⌋ = 21) := by
  constructor
  · rw [tileToolDown_write st p ts aL tm hts hal htm hc0 hc1 hr0 hr1]
    show tilemapLookup (st.activeScene.updateLayer aL.id _) = _
    rw [tilemapLookup_after_write st.activeScene aL
      (fun o =>
        { o with tileData := (jsSetIdx o.tileData
            (⌊(p.2 - tm.y) / tm.tileSize⌋ * tm.columns + ⌊(p.1 - tm.x) / tm.tileSize⌋).toNat
            (jsOrOne st.appSelectedTile)) })
      (fun o => rfl) hal, htm]
    rfl
  · intro hx hy hsz hcols hp
    subst hp
    rw [hx, hy, hsz, hcols]
    norm_num

/-- C4 (witness): painting the concrete 10 by 10 tilemap at (35, 67)
targets col 1, row 2, flat index 21. -/
theorem claim_C4_wit :
    ⌊(((35 : ℚ), (67 : ℚ)).1 - tilemapObj.x) / tilemapObj.tileSize⌋ = 1 ∧
    ⌊(((35 : ℚ), (67 : ℚ)).2 - tilemapObj.y) / tilemapObj.tileSize⌋ = 2 ∧
    ⌊(((35 : ℚ), (67 : ℚ)).2 - tilemapObj.y) / tilemapObj.tileSize⌋ * tilemapObj.columns +
      ⌊(((35 : ℚ), (67 : ℚ)).1 - tilemapObj.x) / tilemapObj.tileSize⌋ = 21 :=
  (claim_C4_thm stTM (35, 67) "ts1" layerTM tilemapObj rfl rfl rfl
    (by norm_num [tilemapObj]) (by norm_num [tilemapObj])
    (by norm_num [tilemapObj]) (by norm_num [tilemapObj])).2
    rfl rfl rfl rfl rfl

/-- C10: both tile-paint handlers write the value `selectedTile || 1`
into the targeted cell; that value is never the empty index 0, and when
the selected tile is unset or 0 the value written is 1, so the paint
tool cannot erase a cell. -/
theorem claim_C10_thm (st : SceneEditor) (p : ℚ × ℚ) (ts : String) (aL : Layer)
    (tm : SceneObject)
    (hts : st.appTileset = some ts)
    (hal : st.activeScene.findLayer st.activeScene.activeLayer = some aL)
    (htm : aL.objects.find? (fun o => o.type == "tilemap") = some tm)
    (hc0 : 0 ≤ ⌊(p.1 - tm.x) / tm.tileSize⌋)
    (hc1 : ⌊(p.1 - tm.x) / tm.tileSize⌋ < tm.columns)
    (hr0 : 0 ≤ ⌊(p.2 - tm.y) / tm.tileSize⌋)
    (hr1 : ⌊(p.2 - tm.y) / tm.tileSize⌋ < tm.rows)
    (hlen : (tm.tileData.length : ℤ) = tm.columns * tm.rows)
    (hdrag : st.isDragging = true)
    (hlast : st.lastPlacedTile ≠
      some (⌊(p.1 - tm.x) / tm.tileSize⌋, ⌊(p.2 - tm.y) / tm.tileSize⌋)) :
    ((tilemapLookup ((st.handleTileToolDown p).activeScene)).bind (fun o =>
        o.tileData.get? (⌊(p.2 - tm.y) / tm.tileSize⌋ * tm.columns +
          ⌊(p.1 - tm.x) / tm.tileSize⌋).toNat) = some (jsOrOne st.appSelectedTile)) ∧
    ((tilemapLookup ((st.handleTileToolMove p).activeScene)).bind (fun o =>
        o.tileData.get? (⌊(p.2 - tm.y) / tm.tileSize⌋ * tm.columns +
          ⌊(p.1 - tm.x) / tm.tileSize⌋).toNat) = some (jsOrOne st.appSelectedTile)) ∧
    jsOrOne st.appSelectedTile ≠ 0 ∧
    ((st.appSelectedTile = none ∨ st.appSelectedTile = some 0) →
      jsOrOne st.appSelectedTile = 1) := by
  have hidx : (⌊(p.2 - tm.y) / tm.tileSize⌋ * tm.columns +
      ⌊(p.1 - tm.x) / tm.tileSize⌋).toNat < tm.tileData.length :=
    idx_toNat_lt hlen hc0 hc1 hr0 hr1
  refine ⟨?_, ?_, jsOrOne_ne_zero st.appSelectedTile, ?_⟩
  · rw [tileToolDown_write st p ts aL tm hts hal htm hc0 hc1 hr0 hr1]
    show (tilemapLookup (st.activeScene.updateLayer aL.id _)).bind _ = _
    rw [tilemapLookup_after_write st.activeScene aL
      (fun o =>
        { o with tileData := (jsSetIdx o.tileData
            (⌊(p.2 - tm.y) / tm.tileSize⌋ * tm.columns + ⌊(p.1 - tm.x) / tm.tileSize⌋).toNat
            (jsOrOne st.appSelectedTile)) })
      (fun o => rfl) hal, htm]
    simp only [Option.map_some', Option.some_bind]
    exact get?_jsSetIdx_self (jsOrOne st.appSelectedTile) hidx
  · rw [tileToolMove_write st p aL tm hdrag hal htm hc0 hc1 hr0 hr1 hlast]
    show (tilemapLookup (st.activeScene.updateLayer aL.id _)).bind _ = _
    rw [tilemapLookup_after_write st.activeScene aL
      (fun o =>
        { o with tileData := (jsSetIdx o.tileData
            (⌊(p.2 - tm.y) / tm.tileSize⌋ * tm.columns + ⌊(p.1 - tm.x) / tm.tileSize⌋).toNat
            (jsOrOne st.appSelectedTile)) })
      (fun o => rfl) hal, htm]
    simp only [Option.map_some', Option.some_bind]
    exact get?_jsSetIdx_self (jsOrOne st.appSelectedTile) hidx
  · intro h
    rcases h with h | h <;> simp [jsOrOne, h]

/-- C10 (witness): with the empty tile index 0 selected, painting the
concrete tilemap at (35, 67) writes 1 into cell 21 through both
handlers. -/
theorem claim_C10_wit :
    ((tilemapLookup ((stTileZero.handleTileToolDown (35, 67)).activeScene)).bind (fun o =>
        o.tileData.get? (⌊((((35 : ℚ), (67 : ℚ))).2 - tilemapObj.y) / tilemapObj.tileSize⌋ *
          tilemapObj.columns +
          ⌊((((35 : ℚ), (67 : ℚ))).1 - tilemapObj.x) / tilemapObj.tileSize⌋).toNat)
      = some 1) ∧
    jsOrOne stTileZero.appSelectedTile = 1 := by
  have h := claim_C10_thm stTileZero (35, 67) "ts1" layerTM tilemapObj rfl rfl rfl
    (by norm_num [tilemapObj]) (by norm_num [tilemapObj])
    (by norm_num [tilemapObj]) (by norm_num [tilemapObj])
    (by norm_num [tilemapObj]) rfl (by simp [stTileZero, stTM, baseState])
  exact ⟨h.1, h.2.2.2 (Or.inr rfl)⟩

lemma findLayer_updateLayer (s : Scene) (aL : Layer) (F : Layer → Layer)
    (hal : s.findLayer s.activeLayer = some aL) (hF : ∀ l, (F l).id = l.id) :
    (s.updateLayer aL.id F).findLayer (s.updateLayer aL.id F).activeLayer = some (F aL) := by
  have hid : aL.id = s.activeLayer := by simpa using List.find?_some hal
  show (s.updateLayer aL.id F).findLayer s.activeLayer = some (F aL)
  have hpe : (fun l : Layer => l.id == aL.id) = (fun l : Layer => l.id == s.activeLayer) := by
    rw [hid]
  unfold Scene.findLayer Scene.updateLayer
  simp only [hpe]
  rw [find?_updateFirst (fun l => l.id == s.activeLayer) F s.layers
    (fun l => by simp [hF l])]
  unfold Scene.findLayer at hal
  rw [hal]
  rfl

/-- C5 (counterexample): an out-of-bounds tile-paint down event is not a
no-op when the active layer has no tilemap yet: painting at
(-100, -100) on a tilemap-less scene still lazily creates and inserts a
tilemap, growing the active layer from 1 object to 2, even though the
computed cell is out of bounds and no tile is written. -/
theorem claim_C5_cex :
    (stC5.handleTileToolDown (-100, -100)).activeScene.layers.map
        (fun l => l.objects.length) = [2] ∧
    stC5.activeScene.layers.map (fun l => l.objects.length) = [1] := by
  constructor
  · simp [SceneEditor.handleTileToolDown, stC5, baseState, sceneS, layerL, objA,
      Scene.findLayer, List.find?, Scene.updateLayer, Layer.updateObject, updateFirst,
      SceneEditor.newTilemap]
    norm_num
  · rfl

/-- C5 (amended): missing-tileset and missing-active-layer tile-paint
events are full no-ops, out-of-bounds events never write tileData, and
handleTileToolMove is a full no-op on every out-of-bounds or
missing-layer or missing-tilemap event; handleTileToolDown is a full
no-op on an out-of-bounds event only when a tilemap already exists,
since otherwise it first lazily inserts one (see the counterexample). -/
theorem claim_C5_thm (st : SceneEditor) (p : ℚ × ℚ) :
    (st.activeScene.findLayer st.activeScene.activeLayer = none →
      st.handleTileToolDown p = st ∧ st.handleTileToolMove p = st) ∧
    (st.appTileset = none → st.handleTileToolDown p = st) ∧
    (∀ aL : Layer, st.activeScene.findLayer st.activeScene.activeLayer = some aL →
      aL.objects.find? (fun o => o.type == "tilemap") = none →
      st.handleTileToolMove p = st) ∧
    (∀ (aL : Layer) (tm : SceneObject),
      st.activeScene.findLayer st.activeScene.activeLayer = some aL →
      aL.objects.find? (fun o => o.type == "tilemap") = some tm →
      (⌊(p.1 - tm.x) / tm.tileSize⌋ < 0 ∨ tm.columns ≤ ⌊(p.1 - tm.x) / tm.tileSize⌋ ∨
       ⌊(p.2 - tm.y) / tm.tileSize⌋ < 0 ∨ tm.rows ≤ ⌊(p.2 - tm.y) / tm.tileSize⌋) →
      st.handleTileToolDown p = st ∧ st.handleTileToolMove p = st) := by
  refine ⟨?_, ?_, ?_, ?_⟩
  · intro hal
    constructor
    · unfold SceneEditor.handleTileToolDown
      cases hts2 : st.appTileset with
      | none => rfl
      | some ts2 => rw [hal]
    · unfold SceneEditor.handleTileToolMove
      cases hd : st.isDragging with
      | false => rfl
      | true =>
        simp only [Bool.not_true, Bool.false_eq_true, if_false]
        rw [hal]
  · intro hts2
    unfold SceneEditor.handleTileToolDown
    rw [hts2]
  · intro aL hal htm
    unfold SceneEditor.handleTileToolMove
    cases hd : st.isDragging with
    | false => rfl
    | true =>
      simp only [Bool.not_true, Bool.false_eq_true, if_false]
      rw [hal]
      simp only [htm]
  · intro aL tm hal htm hoob
    constructor
    · unfold SceneEditor.handleTileToolDown
      cases hts2 : st.appTileset with
      | none => rfl
      | some ts2 =>
        rw [hal]
        simp only [htm]
        rw [if_pos hoob, ← hts2]
    · unfold SceneEditor.handleTileToolMove
      cases hd : st.isDragging with
      | false => rfl
      | true =>
        simp only [Bool.not_true, Bool.false_eq_true, if_false]
        rw [hal]
        simp only [htm]
        rw [if_pos hoob]

/-- C5 (witness): on the concrete tilemap scene the out-of-bounds point
(-5, 10) leaves both handlers as no-ops, and with a dangling active
layer id the move handler is a no-op. -/
theorem claim_C5_wit :
    stTM.handleTileToolDown (-5, 10) = stTM ∧
    stTM.handleTileToolMove (-5, 10) = stTM ∧
    stNoLayer.handleTileToolMove (3, 3) = stNoLayer := by
  have h4 := (claim_C5_thm stTM (-5, 10)).2.2.2 layerTM tilemapObj rfl rfl
    (Or.inl (by norm_num [tilemapObj]))
  have h1 := (claim_C5_thm stNoLayer (3, 3)).1 rfl
  exact ⟨h4.1, h4.2, h1.2⟩

/-- C7: the tilemap lazily created by the tile-paint tool satisfies
`tileData.length = columns * rows` (for a scene with nonnegative
dimensions), and both tile-paint handlers preserve that invariant for
every tilemap in the scene, since every write targets an in-bounds flat
index. -/
theorem claim_C7_thm (st : SceneEditor) (p : ℚ × ℚ) (ts : String)
    (hw : 0 ≤ st.activeScene.width) (hh : 0 ≤ st.activeScene.height)
    (hinv : tilemapInvariant st.activeScene) :
    (((st.newTilemap ts).tileData.length : ℤ)
        = (st.newTilemap ts).columns * (st.newTilemap ts).rows) ∧
    tilemapInvariant ((st.handleTileToolDown p).activeScene) ∧
    tilemapInvariant ((st.handleTileToolMove p).activeScene) := by
  refine ⟨newTilemap_len st ts hw hh, ?_, ?_⟩
  · unfold SceneEditor.handleTileToolDown
    cases hts2 : st.appTileset with
    | none => exact hinv
    | some ts2 =>
      cases hal : st.activeScene.findLayer st.activeScene.activeLayer with
      | none => exact hinv
      | some aL =>
        cases htm : aL.objects.find? (fun o => o.type == "tilemap") with
        | some tm =>
          simp only [htm]
          split
          · exact hinv
          · next hoob =>
            push_neg at hoob
            obtain ⟨hc0, hc1, hr0, hr1⟩ := hoob
            have hlen := hinv aL (List.mem_of_find?_eq_some hal) tm
              (List.mem_of_find?_eq_some htm) (by simpa using List.find?_some htm)
            exact tilemapInvariant_write st.activeScene aL tm _ _ hal htm hinv
              (idx_toNat_lt hlen hc0 hc1 hr0 hr1)
        | none =>
          simp only [htm]
          have hlen2 := newTilemap_len st ts2 hw hh
          have hinv1 : tilemapInvariant (st.activeScene.updateLayer aL.id (fun l =>
              { l with objects := l.objects ++ [st.newTilemap ts2] })) :=
            tilemapInvariant_append st.activeScene aL (st.newTilemap ts2) hal hinv hlen2
          split
          · exact hinv1
          · next hoob =>
            push_neg at hoob
            obtain ⟨hc0, hc1, hr0, hr1⟩ := hoob
            have hal1 := findLayer_updateLayer st.activeScene aL
              (fun l => { l with objects := l.objects ++ [st.newTilemap ts2] }) hal
              (fun l => rfl)
            have htm1 : ((fun l => { l with objects := l.objects ++ [st.newTilemap ts2] })
                aL : Layer).objects.find? (fun o => o.type == "tilemap")
                = some (st.newTilemap ts2) := by
              show (aL.objects ++ [st.newTilemap ts2]).find? (fun o => o.type == "tilemap")
                = some (st.newTilemap ts2)
              rw [List.find?_append, htm]
              rfl
            exact tilemapInvariant_write
              (st.activeScene.updateLayer aL.id (fun l =>
                { l with objects := l.objects ++ [st.newTilemap ts2] }))
              { aL with objects := aL.objects ++ [st.newTilemap ts2] }
              (st.newTilemap ts2) _ _ hal1 htm1 hinv1
              (idx_toNat_lt hlen2 hc0 hc1 hr0 hr1)
  · unfold SceneEditor.handleTileToolMove
    cases hd : st.isDragging with
    | false => exact hinv
    | true =>
      simp only [Bool.not_true, Bool.false_eq_true, if_false]
      cases hal : st.activeScene.findLayer st.activeScene.activeLayer with
      | none => exact hinv
      | some aL =>
        dsimp only
        cases htm : aL.objects.find? (fun o => o.type == "tilemap") with
        | none => exact hinv
        | some tm =>
          simp only [htm]
          split
          · exact hinv
          · split
            · exact hinv
            · next hoob hsame =>
              push_neg at hoob
              obtain ⟨hc0, hc1, hr0, hr1⟩ := hoob
              have hlen := hinv aL (List.mem_of_find?_eq_some hal) tm
                (List.mem_of_find?_eq_some htm) (by simpa using List.find?_some htm)
              exact tilemapInvariant_write st.activeScene aL tm _ _ hal htm hinv
                (idx_toNat_lt hlen hc0 hc1 hr0 hr1)

/-- C7 (witness): painting the fresh 800 by 600 scene at (35, 67)
lazily creates a 25 by 19 tilemap and the invariant holds for the
resulting scene. -/
theorem claim_C7_wit :
    tilemapInvariant ((stC7w.handleTileToolDown (35, 67)).activeScene) :=
  (claim_C7_thm stC7w (35, 67) "ts1" (by norm_num [stC7w, baseState, sceneS])
    (by norm_num [stC7w, baseState, sceneS])
    (by
      intro l hl o ho hty
      simp [stC7w, baseState, sceneS, layerL] at hl
      subst hl
      simp [layerL, List.mem_singleton] at ho
      subst ho
      simp [objA] at hty)).2.1

end SceneEdit
